import Mathlib

/-! Verification of the `dam_sdk` Python SDK against its specification.

The definitions below are a shallow embedding of the repository's code:
`dam_sdk/client.py` (response classification, uploads), `dam_sdk/async_client.py`
(async request error path), `dam_sdk/models.py` (data models, timestamp parsing,
transform-option serialization) and `dam_sdk/utils.py` (query strings, filename
sanitization).  Python `None`/truthiness, JSON values, `dict.get`, exception
raising and `datetime.fromisoformat` are modelled explicitly.
-/

namespace DamSdk

/-- JSON values, as produced by `response.json()` / `json.loads`.  Numbers are
modelled as integers (no claim involves fractional JSON numbers); objects are
association lists with distinct keys. -/
inductive Json where
  | null
  | bool (b : Bool)
  | num (n : Int)
  | str (s : String)
  | arr (elems : List Json)
  | obj (fields : List (String × Json))

/-- Python truthiness of a JSON value (`None`, `False`, `0`, `""`, `[]`, `{}`
are falsy). -/
def Json.truthy : Json → Bool
  | .null => false
  | .bool b => b
  | .num n => n != 0
  | .str s => s != ""
  | .arr elems => !elems.isEmpty
  | .obj fields => !fields.isEmpty

/-- Python `a or b` on JSON values: `a` if truthy, else `b`. -/
def pyOr (a b : Json) : Json := if a.truthy then a else b

/-- Python `dict.get(key)`: the first binding of `key`, else `None`. -/
def dictGet : List (String × Json) → String → Json
  | [], _ => .null
  | (k, v) :: rest, key => if k = key then v else dictGet rest key

/-- Exceptions raised by the SDK code paths under verification.  The typed DAM
errors carry the Python constructor arguments (`ServerError` additionally
formats `"Server error {status}: {msg}"` into its message, which we carry as
the structured triple).  `attributeError` models Python's `AttributeError`
(e.g. `.get` on a non-dict), `valueError` models `ValueError` from
`datetime.fromisoformat`, and `typeErrorBadExceptClause` models the
`TypeError` Python raises when an `except` clause names a class that is not a
`BaseException` subclass. -/
inductive PyExc where
  | authenticationError (msg : Json)
  | authorizationError (msg : Json)
  | notFoundError (msg : Json)
  | fileTooLargeError (msg : Json)
  | validationError (msg : Json)
  | rateLimitError (msg : Json)
  | serverError (msg : Json) (status_code : Nat) (response_data : Json)
  | damError (status : Nat) (msg : Json)
  | attributeError
  | valueError
  | typeErrorBadExceptClause

/-- The extraction chain
`response_data.get('message') or response_data.get('error') or 'Unknown error'`
applied to the fields of a JSON object (`client.py:133`). -/
def extractedMessage (fields : List (String × Json)) : Json :=
  pyOr (dictGet fields "message") (pyOr (dictGet fields "error") (.str "Unknown error"))

/-- Evaluation of `response_data.get('message') or ...` on an arbitrary parsed body: on a
dict it yields the extracted message, on any other JSON value the `.get`
attribute access raises `AttributeError` (`client.py:133`). -/
def errorMessage : Json → Except PyExc Json
  | .obj fields => .ok (extractedMessage fields)
  | _ => .error .attributeError

/-- The status-dispatch portion of `DAMClient._handle_response`
(`client.py:128-154`): `200 → ok body`; otherwise extract the message and map
the status through the `if/elif` chain. -/
def classify (status : Nat) (response_data : Json) : Except PyExc Json :=
  if status = 200 then
    .ok response_data
  else
    match errorMessage response_data with
    | .error e => .error e
    | .ok msg =>
      if status = 401 then .error (.authenticationError msg)
      else if status = 403 then .error (.authorizationError msg)
      else if status = 404 then .error (.notFoundError msg)
      else if status = 413 then .error (.fileTooLargeError msg)
      else if status = 422 then .error (.validationError msg)
      else if status = 429 then .error (.rateLimitError msg)
      else if 500 ≤ status ∧ status < 600 then
        .error (.serverError msg status response_data)
      else .error (.damError status msg)

/-- The body-parsing prologue of `DAMClient._handle_response`
(`client.py:124-126`): `jsonResult` is the outcome of `response.json()`
(`none` when it raises `ValueError`), `text` is `response.text`.  On a parse
failure the code synthesizes `{'message': response.text or 'Unknown error'}`. -/
def handle_response (status : Nat) (jsonResult : Option Json) (text : String) :
    Except PyExc Json :=
  let response_data :=
    match jsonResult with
    | some j => j
    | none => Json.obj [("message", Json.str (if text = "" then "Unknown error" else text))]
  classify status response_data

/-! Async client error path (`async_client.py:80-121`) -/

/-- The three classes named, in order, by the `except` clauses of
`AsyncDAMClient._request`. -/
inductive ExceptClause where
  | clientTimeout
  | clientConnectionError
  | clientError

/-- Whether the named class is a `BaseException` subclass.
`aiohttp.ClientTimeout` is the timeout-configuration dataclass, not an
exception, in every aiohttp 3.x release (the SDK requires `aiohttp>=3.8.0`);
`aiohttp.ClientConnectionError` and `aiohttp.ClientError` are exceptions. -/
def ExceptClause.isExceptionClass : ExceptClause → Bool
  | .clientTimeout => false
  | .clientConnectionError => true
  | .clientError => true

/-- Whether an exception raised by the delegated sync classifier matches the
named aiohttp class.  The SDK's exception hierarchy is rooted at `DAMError ⊂
Exception` and `AttributeError ⊂ Exception`; none of them inherits from any
aiohttp class. -/
def ExceptClause.matches (_ : ExceptClause) (_ : PyExc) : Bool := false

/-- Python exception-handler matching for an exception `e` propagating to a
chain of `except` clauses: clauses are checked in order; naming a class that
is not a `BaseException` subclass raises `TypeError` at the match; with no
matching clause the exception propagates unchanged.  (The handler bodies of
`_request` are unreachable for SDK exceptions and are not modelled.) -/
def runExceptChain : List ExceptClause → PyExc → PyExc
  | [], e => e
  | cls :: rest, e =>
    if cls.isExceptionClass = false then .typeErrorBadExceptClause
    else if cls.matches e then e
    else runExceptChain rest e

/-- Embedding of `AsyncDAMClient._request` on a non-200 response (`async_client.py:90-113`):
inside the `try`, the aiohttp response is adapted into a mock object
(`status_code := status`, `text := text`, `json() := json.loads(text)`) and
passed to the sync classifier `DAMClient._handle_response`; the exception it
raises then propagates through the `except` chain
`(aiohttp.ClientTimeout, aiohttp.ClientConnectionError, aiohttp.ClientError)`. -/
def async_request_error_path (status : Nat) (jsonResult : Option Json)
    (text : String) : Except PyExc Json :=
  match handle_response status jsonResult text with
  | .ok j => .ok j
  | .error e =>
      .error (runExceptChain
        [.clientTimeout, .clientConnectionError, .clientError] e)

/-! Embeddings from `utils.py`: `sanitize_filename` and `build_query_params` -/

/-- Split a character list on `'/'` (the component split `pathlib` performs
on POSIX paths). -/
def splitSlash : List Char → List (List Char)
  | [] => [[]]
  | c :: rest =>
    if c = '/' then [] :: splitSlash rest
    else
      match splitSlash rest with
      | comp :: comps => (c :: comp) :: comps
      | [] => [[c]]

/-- Model of `PurePosixPath(s).name`: the last path component after dropping empty and
`"."` components, or `""` when none remains. -/
def pathName (s : String) : String :=
  match ((splitSlash s.data).filter fun p => p ≠ [] ∧ p ≠ ['.']).getLast? with
  | some p => ⟨p⟩
  | none => ""

/-- The characters `'<>:"/\\|?*'` iterated by `sanitize_filename`
(`utils.py:30`), in source order. -/
def invalidChars : List Char := ['<', '>', ':', '"', '/', '\\', '|', '?', '*']

/-- Python `str.replace(c, '_')` for a single-character pattern. -/
def replaceChar (c : Char) (s : String) : String :=
  ⟨s.data.map fun x => if x = c then '_' else x⟩

/-- Embedding of `sanitize_filename` (`utils.py:25-35`): strip to the path's final name,
then replace each invalid character with `'_'` in turn. -/
def sanitize_filename (filename : String) : String :=
  invalidChars.foldl (fun acc c => replaceChar c acc) (pathName filename)

/-- Python values appearing in query-parameter dicts. -/
inductive PyVal where
  | vnone
  | vint (n : Int)
  | vbool (b : Bool)
  | vstr (s : String)
  | vlist (elems : List PyVal)

mutual

/-- Python `repr(v)` (strings quoted), used by `str` on list elements. -/
def pyRepr : PyVal → String
  | .vnone => "None"
  | .vint n => toString n
  | .vbool b => if b then "True" else "False"
  | .vstr s => "'" ++ s ++ "'"
  | .vlist elems => "[" ++ String.intercalate ", " (pyReprList elems) ++ "]"

/-- Python `repr` of each list element. -/
def pyReprList : List PyVal → List String
  | [] => []
  | v :: rest => pyRepr v :: pyReprList rest

end

/-- Python `str(v)` for the value shapes above. -/
def pyStr : PyVal → String
  | .vnone => "None"
  | .vint n => toString n
  | .vbool b => if b then "True" else "False"
  | .vstr s => s
  | .vlist elems => "[" ++ String.intercalate ", " (pyReprList elems) ++ "]"

/-- Python `v is None`. -/
def PyVal.isNone : PyVal → Bool
  | .vnone => true
  | _ => false

/-- The per-value rendering of `build_query_params` (`utils.py:44-50`):
booleans become `str(value).lower()`, lists/tuples a comma join, everything
else `str(value)`. -/
def renderValue : PyVal → String
  | .vbool b => if b then "true" else "false"
  | .vlist elems => String.intercalate "," (elems.map pyStr)
  | v => pyStr v

/-- Embedding of `build_query_params` (`utils.py:37-53`): keys with value `None` are
skipped, the rest render as `key=value` joined with `&` behind a `?`; the
empty part list yields `""`. -/
def build_query_params (params : List (String × PyVal)) : String :=
  let query_parts :=
    (params.filter fun p => !p.2.isNone).map fun p => p.1 ++ "=" ++ renderValue p.2
  if query_parts.isEmpty then "" else "?" ++ String.intercalate "&" query_parts

/-! Embeddings from `models.py`: `TransformOptions.to_query_params` -/

/-- The `TransformOptions` dataclass (`models.py:105-113`) with its defaults. -/
structure TransformOptions where
  width : Option Int := none
  height : Option Int := none
  fit : String := "cover"
  format : Option String := none
  quality : Int := 80
  blur : Option Int := none
  grayscale : Bool := false
  rotate : Option Int := none

/-- Truthiness of an `Optional[int]` field: `None` and `0` are falsy. -/
def optIntTruthy : Option Int → Bool
  | none => false
  | some n => n != 0

/-- The `if self.f: params[key] = str(self.f)` pattern for an
`Optional[int]` field: emitted only when truthy (`None` and `0` are falsy). -/
def optIntField (key : String) (v : Option Int) : List (String × String) :=
  match v with
  | some n => if n ≠ 0 then [(key, toString n)] else []
  | none => []

/-- The `if self.f: params[key] = str(self.f)` pattern for an `int` field. -/
def intField (key : String) (n : Int) : List (String × String) :=
  if n ≠ 0 then [(key, toString n)] else []

/-- The `if self.f: params[key] = self.f` pattern for a `str` field. -/
def strField (key : String) (s : String) : List (String × String) :=
  if s ≠ "" then [(key, s)] else []

/-- The `if self.f: params[key] = self.f` pattern for an `Optional[str]`
field. -/
def optStrField (key : String) (v : Option String) : List (String × String) :=
  match v with
  | some s => strField key s
  | none => []

/-- The `if self.grayscale: params['grayscale'] = 'true'` pattern. -/
def boolField (key : String) (b : Bool) : List (String × String) :=
  if b then [(key, "true")] else []

/-- Embedding of `TransformOptions.to_query_params` (`models.py:115-135`), with the pairs
in the source's insertion order. -/
def TransformOptions.to_query_params (t : TransformOptions) : List (String × String) :=
  optIntField "w" t.width ++
  optIntField "h" t.height ++
  strField "fit" t.fit ++
  optStrField "format" t.format ++
  intField "quality" t.quality ++
  optIntField "blur" t.blur ++
  boolField "grayscale" t.grayscale ++
  optIntField "rotate" t.rotate

/-! Embeddings from `models.py`: timestamp parsing (`datetime.fromisoformat`) -/

/-- Gregorian leap year, as used by `datetime`'s day-of-month validation. -/
def isLeapYear (y : Nat) : Bool := (y % 4 = 0 && y % 100 ≠ 0) || y % 400 = 0

/-- Days in a month, for `fromisoformat`'s range validation. -/
def daysInMonth (y m : Nat) : Nat :=
  if m = 2 then (if isLeapYear y then 29 else 28)
  else if m = 4 ∨ m = 6 ∨ m = 9 ∨ m = 11 then 30
  else 31

/-- The value of an ASCII digit, `none` otherwise. -/
def digitVal (c : Char) : Option Nat :=
  if c.isDigit then some (c.toNat - 48) else none

/-- Two ASCII digits as a number. -/
def digits2 (a b : Char) : Option Nat := do
  let x ← digitVal a
  let y ← digitVal b
  pure (x * 10 + y)

/-- Four ASCII digits as a number. -/
def digits4 (a b c d : Char) : Option Nat := do
  let hi ← digits2 a b
  let lo ← digits2 c d
  pure (hi * 100 + lo)

/-- A `datetime` value as produced by `datetime.fromisoformat`:
`tzOffsetSeconds = some o` is an aware value with a fixed UTC offset,
`none` is a naive value. -/
structure PyDatetime where
  year : Nat
  month : Nat
  day : Nat
  hour : Nat := 0
  minute : Nat := 0
  second : Nat := 0
  microsecond : Nat := 0
  tzOffsetSeconds : Option Int := none
  deriving DecidableEq, Repr

/-- Split a time string at the first `'+'` or `'-'` (how CPython's
`parse_isoformat_time` locates the timezone part). -/
def splitTzSign : List Char → List Char × Option (Char × List Char)
  | [] => ([], none)
  | c :: rest =>
    if c = '+' ∨ c = '-' then ([], some (c, rest))
    else
      let (t, z) := splitTzSign rest
      (c :: t, z)

/-- Fractional seconds: exactly three or six digits after the dot, scaled to
microseconds (the only widths `fromisoformat` accepts before Python 3.11). -/
def parseFrac : List Char → Option Nat
  | [a, b, c] => do
    let x ← digits2 a b
    let y ← digitVal c
    pure ((x * 10 + y) * 1000)
  | [a, b, c, d, e, f] => do
    let hi ← digits2 a b
    let mid ← digits2 c d
    let lo ← digits2 e f
    pure (hi * 10000 + mid * 100 + lo)
  | _ => none

/-- The clock portion `HH[:MM[:SS[.fff[fff]]]]` with range validation. -/
def parseTimeCore : List Char → Option (Nat × Nat × Nat × Nat)
  | [h1, h2] => do
    let h ← digits2 h1 h2
    if h ≤ 23 then pure (h, 0, 0, 0) else none
  | [h1, h2, ':', m1, m2] => do
    let h ← digits2 h1 h2
    let m ← digits2 m1 m2
    if h ≤ 23 ∧ m ≤ 59 then pure (h, m, 0, 0) else none
  | [h1, h2, ':', m1, m2, ':', s1, s2] => do
    let h ← digits2 h1 h2
    let m ← digits2 m1 m2
    let s ← digits2 s1 s2
    if h ≤ 23 ∧ m ≤ 59 ∧ s ≤ 59 then pure (h, m, s, 0) else none
  | h1 :: h2 :: ':' :: m1 :: m2 :: ':' :: s1 :: s2 :: '.' :: frac => do
    let h ← digits2 h1 h2
    let m ← digits2 m1 m2
    let s ← digits2 s1 s2
    let us ← parseFrac frac
    if h ≤ 23 ∧ m ≤ 59 ∧ s ≤ 59 then pure (h, m, s, us) else none
  | _ => none

/-- The timezone portion `HH:MM[:SS]` after the sign, as an offset in
seconds. -/
def parseTzPart : List Char → Option Nat
  | [h1, h2, ':', m1, m2] => do
    let h ← digits2 h1 h2
    let m ← digits2 m1 m2
    if h ≤ 23 ∧ m ≤ 59 then pure (h * 3600 + m * 60) else none
  | [h1, h2, ':', m1, m2, ':', s1, s2] => do
    let h ← digits2 h1 h2
    let m ← digits2 m1 m2
    let s ← digits2 s1 s2
    if h ≤ 23 ∧ m ≤ 59 ∧ s ≤ 59 then pure (h * 3600 + m * 60 + s) else none
  | _ => none

/-- Clock plus optional signed timezone offset. -/
def parseTimeTz (cs : List Char) : Option (Nat × Nat × Nat × Nat × Option Int) :=
  let (timePart, tzPart) := splitTzSign cs
  do
    let (h, mi, se, us) ← parseTimeCore timePart
    match tzPart with
    | none => pure (h, mi, se, us, none)
    | some (sign, zs) => do
      let off ← parseTzPart zs
      pure (h, mi, se, us, some (if sign = '-' then -(off : Int) else (off : Int)))

/-- Model of `datetime.fromisoformat` on a character list: the grammar
`YYYY-MM-DD[*HH[:MM[:SS[.fff[fff]]]][{+|-}HH:MM[:SS]]]` it documents for
Python 3.7–3.10 (`*` is any single separator character), with range
validation. -/
def fromisoformatChars (cs : List Char) : Option PyDatetime :=
  match cs with
  | y1 :: y2 :: y3 :: y4 :: dash1 :: m1 :: m2 :: dash2 :: d1 :: d2 :: rest =>
    if dash1 = '-' ∧ dash2 = '-' then do
      let y ← digits4 y1 y2 y3 y4
      let mo ← digits2 m1 m2
      let d ← digits2 d1 d2
      if 1 ≤ y ∧ 1 ≤ mo ∧ mo ≤ 12 ∧ 1 ≤ d ∧ d ≤ daysInMonth y mo then
        match rest with
        | [] => pure { year := y, month := mo, day := d }
        | _sep :: timeChars => do
          let (h, mi, se, us, tz) ← parseTimeTz timeChars
          pure { year := y, month := mo, day := d, hour := h, minute := mi,
                 second := se, microsecond := us, tzOffsetSeconds := tz }
      else none
    else none
  | _ => none

/-- Model of `datetime.fromisoformat` on a string. -/
def fromisoformat (s : String) : Option PyDatetime := fromisoformatChars s.data

/-- Model of `s.replace('Z', '+00:00')` on the character list. -/
def replaceZChars : List Char → List Char
  | [] => []
  | c :: rest => (if c = 'Z' then "+00:00".data else [c]) ++ replaceZChars rest

/-- Model of `s.replace('Z', '+00:00')` (`models.py:55,57`). -/
def pyReplaceZ (s : String) : String := ⟨replaceZChars s.data⟩

/-- A timestamp entry of the dict passed to `File.from_dict`: the key may be
absent, `None`, or a string.  (Other input types skip conversion the same way
`None` does; they are outside the verified claims.) -/
inductive TimestampIn where
  | absent
  | pynone
  | pystr (s : String)

/-- A timestamp field of a constructed `File`: `datetime`, `None`, or a falsy
string that the conversion guard left untouched. -/
inductive TimestampField where
  | nothing
  | dt (d : PyDatetime)
  | raw (s : String)
  deriving DecidableEq, Repr

/-- The timestamp conversion in `File.from_dict` (`models.py:50-57`):
`if value and isinstance(value, str): value = datetime.fromisoformat(value.replace('Z', '+00:00'))`.
An absent or `None` entry stays `None`; an empty string is falsy and is left
as the string itself; a nonempty string is parsed, raising `ValueError` when
malformed. -/
def convertTimestamp : TimestampIn → Except PyExc TimestampField
  | .absent => .ok .nothing
  | .pynone => .ok .nothing
  | .pystr s =>
    if s = "" then .ok (.raw s)
    else
      match fromisoformat (pyReplaceZ s) with
      | some d => .ok (.dt d)
      | none => .error .valueError

/-- The `File` dataclass (`models.py:6-26`).  `duration` is float-typed in
Python and is carried through `from_dict` untouched, so it is held as a raw
JSON value here; likewise `metadata`. -/
structure File where
  id : String
  filename : String
  original_name : String
  mime_type : String
  size : Int
  storage_path : String
  file_url : String
  user_id : String
  folder_id : Option String := none
  width : Option Int := none
  height : Option Int := none
  duration : Option Json := none
  metadata : List (String × Json) := []
  checksum : Option String := none
  is_public : Bool := true
  download_count : Int := 0
  created_at : TimestampField := .nothing
  updated_at : TimestampField := .nothing

/-- The input dict of `File.from_dict`, with the timestamp entries in their
pre-conversion form.  All other entries pass through `cls(**data)`
unchanged. -/
structure FileDict where
  id : String
  filename : String
  original_name : String
  mime_type : String
  size : Int
  storage_path : String
  file_url : String
  user_id : String
  folder_id : Option String := none
  width : Option Int := none
  height : Option Int := none
  duration : Option Json := none
  metadata : List (String × Json) := []
  checksum : Option String := none
  is_public : Bool := true
  download_count : Int := 0
  created_at : TimestampIn := .absent
  updated_at : TimestampIn := .absent

/-- Embedding of `File.from_dict` (`models.py:47-59`): convert `created_at`, then
`updated_at` (a `ValueError` from either propagates), then build the
dataclass with every other entry unchanged. -/
def File.from_dict (d : FileDict) : Except PyExc File := do
  let ca ← convertTimestamp d.created_at
  let ua ← convertTimestamp d.updated_at
  pure { id := d.id, filename := d.filename, original_name := d.original_name,
         mime_type := d.mime_type, size := d.size, storage_path := d.storage_path,
         file_url := d.file_url, user_id := d.user_id, folder_id := d.folder_id,
         width := d.width, height := d.height, duration := d.duration,
         metadata := d.metadata, checksum := d.checksum, is_public := d.is_public,
         download_count := d.download_count, created_at := ca, updated_at := ua }

/-! Embeddings from `models.py`: MIME-type classification -/

/-- Python `s.startswith(p)`. -/
def pyStartsWith (s p : String) : Bool := p.data.isPrefixOf s.data

/-- Embedding of `File.is_image` (`models.py:28-30`). -/
def File.is_image (f : File) : Bool := pyStartsWith f.mime_type "image/"

/-- Embedding of `File.is_video` (`models.py:32-34`). -/
def File.is_video (f : File) : Bool := pyStartsWith f.mime_type "video/"

/-- The five document MIME types of `File.is_document` (`models.py:36-45`). -/
def documentTypes : List String :=
  ["application/pdf",
   "application/msword",
   "application/vnd.openxmlformats-officedocument.wordprocessingml.document",
   "application/vnd.ms-excel",
   "application/vnd.openxmlformats-officedocument.spreadsheetml.sheet"]

/-- Embedding of `File.is_document` (`models.py:36-45`). -/
def File.is_document (f : File) : Bool := documentTypes.contains f.mime_type

/-! Embeddings from `client.py`: upload size validation and file-handle lifecycle -/

/-- The constant `MAX_FILE_SIZE` (`constants.py:9`): 100 MB. -/
def MAX_FILE_SIZE : Nat := 100 * 1024 * 1024

/-- Embedding of `validate_file_size` (`utils.py:12-15`) applied to a file's size in
bytes. -/
def validate_file_size (fileSize maxSize : Nat) : Bool := fileSize ≤ maxSize

/-- Effects of `upload_file` on the path branch, in order of occurrence. -/
inductive UploadEvent where
  | sizeCheck (path : String)
  | fileOpen (path : String)
  | networkRequest
  deriving DecidableEq, Repr

/-- Embedding of `DAMClient.upload_file` on a filesystem-path input (`client.py:180-192`):
validate the size against `MAX_FILE_SIZE`; on failure raise
`FileTooLargeError` immediately; otherwise open the file and issue the
request.  The network transport is an oracle parameter (its response, and the
subsequent `File.from_dict` projection, are settled separately); the first
component records the effect trace. -/
def upload_file_path (path : String) (fileSize : Nat)
    (transport : Except PyExc Json) : List UploadEvent × Except PyExc Json :=
  if validate_file_size fileSize MAX_FILE_SIZE = false then
    ([.sizeCheck path],
     .error (.fileTooLargeError
       (.str ("File exceeds maximum size of " ++ toString MAX_FILE_SIZE ++ " bytes"))))
  else
    ([.sizeCheck path, .fileOpen path, .networkRequest], transport)

/-- The multipart-assembly loop of `upload_multiple_files`
(`client.py:211-222`) over filesystem-path inputs `(path, size)`: for each
file, validate the size (raising `FileTooLargeError` on failure) and then
`open` it, appending the handle to `files`.  Returns the indices of the
handles opened before the loop finished or raised, plus the raised error if
any. -/
def assembleFiles : List (String × Nat) → Nat → List Nat × Option PyExc
  | [], _ => ([], none)
  | (path, size) :: rest, i =>
    if validate_file_size size MAX_FILE_SIZE = false then
      ([], some (.fileTooLargeError (.str ("File " ++ path ++ " exceeds maximum size"))))
    else
      let (hs, e) := assembleFiles rest (i + 1)
      (i :: hs, e)

/-- Outcome of one run of `upload_multiple_files`: which handles were opened,
which were closed, and the returned value or raised exception. -/
structure MultiUploadRun where
  opened : List Nat
  closed : List Nat
  outcome : Except PyExc Json

/-- Embedding of `DAMClient.upload_multiple_files` on filesystem-path inputs
(`client.py:197-253`): the assembly loop runs before the `try`; an error
raised there propagates without any `close` call.  When assembly completes,
the request runs inside `try` and the `finally` block closes every handle in
`files` exactly once, whether the request succeeded or raised.  (The
conversion of the response into an `UploadResponse` happens inside the same
`try` and does not touch the handles.) -/
def upload_multiple_files (inputs : List (String × Nat))
    (transport : Except PyExc Json) : MultiUploadRun :=
  let (opened, err) := assembleFiles inputs 0
  match err with
  | some e => { opened := opened, closed := [], outcome := .error e }
  | none => { opened := opened, closed := opened, outcome := transport }

/-- Discriminator: did the classifier raise an `AuthenticationError`? -/
def raisesAuthenticationError : Except PyExc Json → Bool
  | .error (.authenticationError _) => true
  | _ => false

/-- A concrete `from_dict` input whose timestamps are an offset-free ISO-8601
string and an empty string. -/
def sampleFileDict : FileDict :=
  { id := "file-1", filename := "f.jpg", original_name := "f.jpg",
    mime_type := "image/jpeg", size := 10, storage_path := "uploads/f.jpg",
    file_url := "http://localhost:55055/f.jpg", user_id := "u1",
    created_at := .pystr "2024-01-01T10:00:00", updated_at := .pystr "" }

/-- The naive datetime that `fromisoformat` yields for
`"2024-01-01T10:00:00"`. -/
def sampleNaiveDt : PyDatetime :=
  { year := 2024, month := 1, day := 1, hour := 10 }

/-- The `File` that `from_dict` builds from `sampleFileDict`. -/
def sampleFileResult : File :=
  { id := "file-1", filename := "f.jpg", original_name := "f.jpg",
    mime_type := "image/jpeg", size := 10, storage_path := "uploads/f.jpg",
    file_url := "http://localhost:55055/f.jpg", user_id := "u1",
    created_at := .dt sampleNaiveDt, updated_at := .raw "" }

/-- The aware datetime that `fromisoformat` yields for
`"2024-01-01T10:00:00+00:00"`. -/
def sampleAwareDt : PyDatetime :=
  { year := 2024, month := 1, day := 1, hour := 10, tzOffsetSeconds := some 0 }

/-- A `from_dict` input with an explicit-offset timestamp and an absent
timestamp. -/
def sampleAwareDict : FileDict :=
  { id := "file-2", filename := "g.png", original_name := "g.png",
    mime_type := "image/png", size := 5, storage_path := "uploads/g.png",
    file_url := "http://localhost:55055/g.png", user_id := "u1",
    created_at := .pystr "2024-01-01T10:00:00+00:00", updated_at := .absent }

/-- The `File` that `from_dict` builds from `sampleAwareDict`. -/
def sampleAwareResult : File :=
  { id := "file-2", filename := "g.png", original_name := "g.png",
    mime_type := "image/png", size := 5, storage_path := "uploads/g.png",
    file_url := "http://localhost:55055/g.png", user_id := "u1",
    created_at := .dt sampleAwareDt, updated_at := .nothing }

/-! Supporting lemmas -/

section Lemmas

/-- Two lists starting with different heads cannot both be prefixes of the
same list. -/
theorem isPrefixOf_disjoint_heads {a b : Char} (p q l : List Char)
    (hab : a ≠ b) : ((a :: p).isPrefixOf l && (b :: q).isPrefixOf l) = false := by
  cases l with
  | nil => rfl
  | cons c t =>
    by_cases hac : a = c
    · have hbc : (b == c) = false := by
        have hbne : b ≠ c := fun h => hab (hac.trans h.symm)
        simp [hbne]
      simp [List.isPrefixOf, hbc]
    · have : (a == c) = false := by simp [hac]
      simp [List.isPrefixOf, this]

/-- Elements of `splitSlash` never contain `'/'`. -/
theorem splitSlash_no_slash : ∀ (cs : List Char), ∀ p ∈ splitSlash cs, '/' ∉ p := by
  intro cs
  induction cs with
  | nil => intro p hp; simp [splitSlash] at hp; simp [hp]
  | cons c rest ih =>
    intro p hp
    by_cases hc : c = '/'
    · simp [splitSlash, hc] at hp
      rcases hp with hp | hp
      · simp [hp]
      · exact ih p hp
    · simp only [splitSlash, if_neg hc] at hp
      rcases hsplit : splitSlash rest with _ | ⟨comp, comps⟩
      · rw [hsplit] at hp
        simp at hp
        rcases hp
        intro hmem
        rcases List.mem_singleton.mp hmem with h
        exact hc h.symm
      · rw [hsplit] at hp
        rcases List.mem_cons.mp hp with hp | hp
        · subst hp
          intro hmem
          rcases List.mem_cons.mp hmem with h | h
          · exact hc h.symm
          · exact ih comp (hsplit ▸ List.mem_cons_self comp comps) h
        · exact ih p (hsplit ▸ List.mem_cons_of_mem comp hp)

/-- The function `splitSlash` never returns the empty list of components. -/
theorem splitSlash_ne_nil (cs : List Char) : splitSlash cs ≠ [] := by
  induction cs with
  | nil => simp [splitSlash]
  | cons c rest ih =>
    by_cases hc : c = '/'
    · simp [splitSlash, hc]
    · simp only [splitSlash, if_neg hc]
      rcases hsplit : splitSlash rest with _ | ⟨comp, comps⟩
      · simp
      · simp

/-- A slash-free character list is its own single component. -/
theorem splitSlash_of_no_slash (cs : List Char) (h : '/' ∉ cs) :
    splitSlash cs = [cs] := by
  induction cs with
  | nil => rfl
  | cons c rest ih =>
    have hc : ¬ c = '/' := fun hc => h (hc ▸ List.mem_cons_self c rest)
    have hrest : '/' ∉ rest := fun hm => h (List.mem_cons_of_mem c hm)
    simp only [splitSlash, if_neg hc, ih hrest]

/-- The extracted path name contains no `'/'`. -/
theorem pathName_no_slash (s : String) : '/' ∉ (pathName s).data := by
  rcases hlast : ((splitSlash s.data).filter fun p => p ≠ [] ∧ p ≠ ['.']).getLast? with _ | p
  · have hs : pathName s = "" := by simp only [pathName, hlast]
    simp [hs]
  · have hs : pathName s = ⟨p⟩ := by simp only [pathName, hlast]
    have hmem := List.mem_of_mem_getLast? hlast
    rw [hs]
    exact splitSlash_no_slash s.data p (List.mem_filter.mp hmem).1

/-- The function `pathName` is idempotent. -/
theorem pathName_idem (s : String) : pathName (pathName s) = pathName s := by
  rcases hlast : ((splitSlash s.data).filter fun p => p ≠ [] ∧ p ≠ ['.']).getLast? with _ | p
  · have hs : pathName s = "" := by simp only [pathName, hlast]
    rw [hs]; rfl
  · have hs : pathName s = ⟨p⟩ := by simp only [pathName, hlast]
    have hmem := List.mem_of_mem_getLast? hlast
    have hpred := (List.mem_filter.mp hmem).2
    have hnoslash : '/' ∉ p := by
      have h := pathName_no_slash s
      rw [hs] at h
      exact h
    rw [hs]
    simp only [pathName]
    rw [splitSlash_of_no_slash p hnoslash]
    have hfil : List.filter (fun p => decide (p ≠ [] ∧ p ≠ ['.'])) [p] = [p] := by
      simp only [List.filter_cons, hpred, if_pos, List.filter_nil]
    rw [hfil]
    rfl

/-- After `str.replace(c, '_')` with `c ≠ '_'`, `c` is gone. -/
theorem replaceChar_not_mem (c : Char) (hc : c ≠ '_') (s : String) :
    c ∉ (replaceChar c s).data := by
  simp only [replaceChar, List.mem_map]
  rintro ⟨x, _, hx⟩
  by_cases hxc : x = c
  · rw [if_pos hxc] at hx; exact hc hx.symm
  · rw [if_neg hxc] at hx; exact hxc hx

/-- A `str.replace(c, '_')` call introduces no character other than `'_'`. -/
theorem replaceChar_preserve (c d : Char) (s : String) (hd : d ≠ '_')
    (h : d ∉ s.data) : d ∉ (replaceChar c s).data := by
  simp only [replaceChar, List.mem_map]
  rintro ⟨x, hxmem, hx⟩
  by_cases hxc : x = c
  · rw [if_pos hxc] at hx; exact hd hx.symm
  · rw [if_neg hxc] at hx; exact h (hx ▸ hxmem)

/-- Absence of a non-underscore character is preserved by the replacement
fold. -/
theorem foldl_replace_preserve (cs : List Char) (s : String) (d : Char)
    (hd : d ≠ '_') (h : d ∉ s.data) :
    d ∉ ((cs.foldl fun acc c => replaceChar c acc) s).data := by
  induction cs generalizing s with
  | nil => exact h
  | cons a rest ih =>
    exact ih (replaceChar a s) (replaceChar_preserve a d s hd h)

/-- Every non-underscore character that the fold processes is absent from the
result. -/
theorem foldl_replace_elim (cs : List Char) (s : String) (c : Char)
    (hc : c ≠ '_') (h : c ∈ cs) :
    c ∉ ((cs.foldl fun acc c => replaceChar c acc) s).data := by
  induction cs generalizing s with
  | nil => cases h
  | cons a rest ih =>
    rcases List.mem_cons.mp h with hca | hmem
    · subst hca
      exact foldl_replace_preserve rest (replaceChar c s) c hc
        (replaceChar_not_mem c hc s)
    · exact ih (replaceChar a s) hmem

/-- Membership in an `Optional[int]` query segment. -/
theorem mem_optIntField (key : String) (o : Option Int) (k v : String) :
    ((k, v) ∈ optIntField key o) ↔
      (k = key ∧ ∃ n, o = some n ∧ n ≠ 0 ∧ v = toString n) := by
  cases o with
  | none => simp [optIntField]
  | some n =>
    by_cases hn : n = 0
    · simp [optIntField, hn]
    · simp [optIntField, hn]

/-- Membership in an `int` query segment. -/
theorem mem_intField (key : String) (n : Int) (k v : String) :
    ((k, v) ∈ intField key n) ↔ (k = key ∧ n ≠ 0 ∧ v = toString n) := by
  by_cases hn : n = 0 <;> simp [intField, hn]

/-- Membership in a `str` query segment. -/
theorem mem_strField (key s k v : String) :
    ((k, v) ∈ strField key s) ↔ (k = key ∧ s ≠ "" ∧ v = s) := by
  by_cases hs : s = "" <;> simp [strField, hs]

/-- Membership in an `Optional[str]` query segment. -/
theorem mem_optStrField (key : String) (o : Option String) (k v : String) :
    ((k, v) ∈ optStrField key o) ↔
      (k = key ∧ ∃ s, o = some s ∧ s ≠ "" ∧ v = s) := by
  cases o with
  | none => simp [optStrField]
  | some s => simp [optStrField, mem_strField]

/-- Membership in the boolean `grayscale` query segment. -/
theorem mem_boolField (key : String) (b : Bool) (k v : String) :
    ((k, v) ∈ boolField key b) ↔ (k = key ∧ b = true ∧ v = "true") := by
  cases b <;> simp [boolField]

/-- A sign character in the model of the timezone split. -/
def isSignChar (c : Char) : Prop := c = '+' ∨ c = '-'

/-- When `splitTzSign` finds no sign, the time part is the whole input and
the input contains no sign character. -/
theorem splitTzSign_eq_none {cs tp : List Char}
    (h : splitTzSign cs = (tp, none)) : tp = cs ∧ ∀ c ∈ cs, ¬ isSignChar c := by
  induction cs generalizing tp with
  | nil =>
    simp [splitTzSign] at h
    simp [h]
  | cons c rest ih =>
    by_cases hc : c = '+' ∨ c = '-'
    · simp [splitTzSign, hc] at h
    · rcases he : splitTzSign rest with ⟨t, z⟩
      simp only [splitTzSign, if_neg hc, he] at h
      rcases Prod.mk.injEq .. ▸ h with ⟨h1, h2⟩
      obtain ⟨ht, hns⟩ := ih (he.trans (by rw [h2]))
      constructor
      · rw [← h1, ht]
      · intro x hx
        rcases List.mem_cons.mp hx with hx | hx
        · subst hx; exact hc
        · exact hns x hx

/-- Splitting a sign-free time part with `'+' :: zs` appended finds the sign
exactly there. -/
theorem splitTzSign_append_plus (cs zs : List Char)
    (h : ∀ c ∈ cs, ¬ isSignChar c) :
    splitTzSign (cs ++ '+' :: zs) = (cs, some ('+', zs)) := by
  induction cs with
  | nil => simp [splitTzSign, isSignChar]
  | cons c rest ih =>
    have hc : ¬ (c = '+' ∨ c = '-') := h c (List.mem_cons_self c rest)
    have hrest : ∀ x ∈ rest, ¬ isSignChar x := fun x hx => h x (List.mem_cons_of_mem c hx)
    simp only [List.cons_append, splitTzSign, if_neg hc]
    rw [show rest.append ('+' :: zs) = rest ++ '+' :: zs from rfl, ih hrest]

/-- The map `replace('Z', ...)` distributes over append. -/
theorem replaceZChars_append (xs ys : List Char) :
    replaceZChars (xs ++ ys) = replaceZChars xs ++ replaceZChars ys := by
  induction xs with
  | nil => rfl
  | cons c rest ih => simp [replaceZChars, ih, List.append_assoc]

/-- The map `replace('Z', ...)` is the identity on `Z`-free text. -/
theorem replaceZChars_of_not_mem (cs : List Char) (h : 'Z' ∉ cs) :
    replaceZChars cs = cs := by
  induction cs with
  | nil => rfl
  | cons c rest ih =>
    have hc : ¬ c = 'Z' := fun hc => h (hc ▸ List.mem_cons_self c rest)
    have hrest : 'Z' ∉ rest := fun hm => h (List.mem_cons_of_mem c hm)
    simp [replaceZChars, hc, ih hrest]

/-- Reduction of the ISO parser on a list long enough to hold a date. -/
theorem fromisoformatChars_cons (y1 y2 y3 y4 dash1 m1 m2 dash2 d1 d2 : Char)
    (rest : List Char) :
    fromisoformatChars (y1 :: y2 :: y3 :: y4 :: dash1 :: m1 :: m2 :: dash2 :: d1 :: d2 :: rest)
      = (if dash1 = '-' ∧ dash2 = '-' then do
          let y ← digits4 y1 y2 y3 y4
          let mo ← digits2 m1 m2
          let d ← digits2 d1 d2
          if 1 ≤ y ∧ 1 ≤ mo ∧ mo ≤ 12 ∧ 1 ≤ d ∧ d ≤ daysInMonth y mo then
            match rest with
            | [] => pure { year := y, month := mo, day := d }
            | _sep :: timeChars => do
              let (h, mi, se, us, tz) ← parseTimeTz timeChars
              pure { year := y, month := mo, day := d, hour := h, minute := mi,
                     second := se, microsecond := us, tzOffsetSeconds := tz }
          else none
        else none) := rfl

theorem fromisoformat_zsuffix (s : String) (dt : PyDatetime)
    (hz : 'Z' ∉ s.data) (hlen : 10 < s.data.length)
    (hp : fromisoformat s = some dt) (hn : dt.tzOffsetSeconds = none) :
    fromisoformat (pyReplaceZ (s ++ "Z")) = some { dt with tzOffsetSeconds := some (0 : Int) } := by
  have hdata : (pyReplaceZ (s ++ "Z")).data = s.data ++ '+' :: "00:00".data := by
    show replaceZChars (s ++ "Z").data = _
    rw [String.data_append, show "Z".data = ['Z'] from rfl,
      replaceZChars_append, replaceZChars_of_not_mem _ hz]
    rfl
  show fromisoformatChars (pyReplaceZ (s ++ "Z")).data = _
  rw [hdata]
  rw [show fromisoformat s = fromisoformatChars s.data from rfl] at hp
  unfold fromisoformatChars at hp
  split at hp
  case h_2 => exact absurd hp (by simp)
  case h_1 y1 y2 y3 y4 dash1 m1 m2 dash2 d1 d2 rest heq =>
    split at hp
    case isFalse => exact absurd hp (by simp)
    case isTrue hdash =>
    obtain ⟨hd1, hd2⟩ := hdash
    subst hd1
    subst hd2
    obtain ⟨y, hy, hp⟩ := Option.bind_eq_some.mp hp
    obtain ⟨mo, hmo, hp⟩ := Option.bind_eq_some.mp hp
    obtain ⟨d, hd, hp⟩ := Option.bind_eq_some.mp hp
    split at hp
    case isFalse => exact absurd hp (by simp)
    case isTrue hvalid =>
    have hrestne : rest ≠ [] := by
      intro hr
      rw [heq, hr] at hlen
      simp at hlen
    cases rest with
    | nil => exact absurd rfl hrestne
    | cons sep timeChars =>
      obtain ⟨quint, hq, hp⟩ := Option.bind_eq_some.mp hp
      obtain ⟨h, mi, se, us, tz⟩ := quint
      rw [Option.pure_def, Option.some.injEq] at hp
      subst hp
      simp only [] at hn
      subst hn
      rcases hsp : splitTzSign timeChars with ⟨timePart, tzPart⟩
      unfold parseTimeTz at hq
      rw [hsp] at hq
      obtain ⟨quad, hcore, hq⟩ := Option.bind_eq_some.mp hq
      cases tzPart with
      | some sz =>
        obtain ⟨sign, zs⟩ := sz
        obtain ⟨off, hoff, hq⟩ := Option.bind_eq_some.mp hq
        rw [Option.pure_def, Option.some.injEq] at hq
        exact absurd (congrArg (fun q => q.2.2.2.2) hq) (by simp)
      | none =>
        rw [Option.pure_def, Option.some.injEq] at hq
        obtain ⟨hsame, hns⟩ := splitTzSign_eq_none hsp
        subst hsame
        obtain ⟨qh, qmi, qse, qus⟩ := quad
        simp only [Prod.mk.injEq] at hq
        obtain ⟨e1, e2, e3, e4, _⟩ := hq
        subst e1
        subst e2
        subst e3
        subst e4
        rw [heq]
        simp only [List.cons_append]
        rw [fromisoformatChars_cons]
        rw [if_pos ⟨rfl, rfl⟩]
        unfold parseTimeTz
        have hz00 : parseTzPart ['0', '0', ':', '0', '0'] = some 0 := rfl
        simp [hy, hmo, hd, hvalid, splitTzSign_append_plus timePart _ hns, hcore, hz00]

end Lemmas

/-! Claims -/

/-- C10: For every mime_type string, the derived classifications are pairwise
disjoint: at most one of `is_image`, `is_video`, `is_document` is true
(`is_image` holds exactly on the `image/` prefix, `is_video` on the `video/`
prefix, and `is_document` exactly for the five fixed `application/...`
document types, none of which carry an `image/` or `video/` prefix). -/
theorem mime_classifications_disjoint (f : File) :
    (f.is_image && f.is_video) = false
    ∧ (f.is_image && f.is_document) = false
    ∧ (f.is_video && f.is_document) = false := by
  have hdoc : f.is_document = true →
      f.mime_type ∈ documentTypes := by
    intro h
    simpa [File.is_document] using h
  refine ⟨?_, ?_, ?_⟩
  · have : ("image/".data.isPrefixOf f.mime_type.data &&
        "video/".data.isPrefixOf f.mime_type.data) = false :=
      isPrefixOf_disjoint_heads _ _ f.mime_type.data (by decide)
    simpa [File.is_image, File.is_video, pyStartsWith] using this
  · by_cases h : f.is_document = true
    · have hm : f.mime_type = "application/pdf" ∨
          f.mime_type = "application/msword" ∨
          f.mime_type = "application/vnd.openxmlformats-officedocument.wordprocessingml.document" ∨
          f.mime_type = "application/vnd.ms-excel" ∨
          f.mime_type = "application/vnd.openxmlformats-officedocument.spreadsheetml.sheet" := by
        simpa [documentTypes] using hdoc h
      have himg : f.is_image = false := by
        rcases hm with h1 | h1 | h1 | h1 | h1 <;>
          · simp only [File.is_image, pyStartsWith, h1]
            decide
      simp [himg]
    · have hf : f.is_document = false := by
        cases hb : f.is_document
        · rfl
        · exact absurd hb h
      simp [hf]
  · by_cases h : f.is_document = true
    · have hm : f.mime_type = "application/pdf" ∨
          f.mime_type = "application/msword" ∨
          f.mime_type = "application/vnd.openxmlformats-officedocument.wordprocessingml.document" ∨
          f.mime_type = "application/vnd.ms-excel" ∨
          f.mime_type = "application/vnd.openxmlformats-officedocument.spreadsheetml.sheet" := by
        simpa [documentTypes] using hdoc h
      have hvid : f.is_video = false := by
        rcases hm with h1 | h1 | h1 | h1 | h1 <;>
          · simp only [File.is_video, pyStartsWith, h1]
            decide
      simp [hvid]
    · have hf : f.is_document = false := by
        cases hb : f.is_document
        · rfl
        · exact absurd hb h
      simp [hf]

/-- C9: Filename sanitization strips all directory components and replaces
each character in `<>:"/\|?*` with an underscore; in particular
`sanitize_filename("/a/b/file<>:.jpg") = "file___.jpg"`. -/
theorem sanitize_filename_spec (s : String) (c : Char) :
    (c ∈ invalidChars → c ∉ (sanitize_filename s).data)
    ∧ sanitize_filename s = sanitize_filename (pathName s)
    ∧ sanitize_filename "/a/b/file<>:.jpg" = "file___.jpg" := by
  refine ⟨?_, ?_, by decide⟩
  · intro hmem
    have hall : ∀ x ∈ invalidChars, x ≠ '_' := by decide
    exact foldl_replace_elim invalidChars (pathName s) c (hall c hmem) hmem
  · unfold sanitize_filename
    rw [pathName_idem]

/-- Witness for C9 at the path `"dir/a<b.jpg"` and the character `'<'`. -/
theorem sanitize_filename_spec_witness :
    ('<' ∈ invalidChars ∧ '<' ∉ (sanitize_filename "dir/a<b.jpg").data)
    ∧ sanitize_filename "dir/a<b.jpg" = sanitize_filename (pathName "dir/a<b.jpg") :=
  ⟨⟨by decide, (sanitize_filename_spec "dir/a<b.jpg" '<').1 (by decide)⟩,
   (sanitize_filename_spec "dir/a<b.jpg" '<').2.1⟩

/-- C7: For every `TransformOptions` value, `to_query_params` serializes
`grayscale=True` as the literal string `'true'`, serializes every truthy
numeric field (`width`, `height`, `quality`, `blur`, `rotate`) as its decimal
string, and omits entirely every absent or falsy optional field (including
`grayscale=False` and zero numerics); with the documented defaults
(`fit='cover'`, `quality=80`) a default-constructed value encodes to exactly
`fit=cover` and `quality=80`. -/
theorem transform_to_query_params_spec (t : TransformOptions) (v : String) :
    ((("grayscale", v) ∈ t.to_query_params) ↔ (t.grayscale = true ∧ v = "true"))
    ∧ ((("w", v) ∈ t.to_query_params) ↔ ∃ n, t.width = some n ∧ n ≠ 0 ∧ v = toString n)
    ∧ ((("h", v) ∈ t.to_query_params) ↔ ∃ n, t.height = some n ∧ n ≠ 0 ∧ v = toString n)
    ∧ ((("quality", v) ∈ t.to_query_params) ↔ (t.quality ≠ 0 ∧ v = toString t.quality))
    ∧ ((("blur", v) ∈ t.to_query_params) ↔ ∃ n, t.blur = some n ∧ n ≠ 0 ∧ v = toString n)
    ∧ ((("rotate", v) ∈ t.to_query_params) ↔ ∃ n, t.rotate = some n ∧ n ≠ 0 ∧ v = toString n)
    ∧ ((("fit", v) ∈ t.to_query_params) ↔ (t.fit ≠ "" ∧ v = t.fit))
    ∧ TransformOptions.to_query_params {} = [("fit", "cover"), ("quality", "80")] := by
  refine ⟨?_, ?_, ?_, ?_, ?_, ?_, ?_, rfl⟩ <;>
    simp [TransformOptions.to_query_params, List.mem_append, mem_optIntField,
      mem_intField, mem_strField, mem_optStrField, mem_boolField]

/-- C8: Query-string building omits every key whose value is `None` (keeping
keys with value `0`); `{limit:10, offset:0, folder_id:None}` produces a string
containing the substring `limit=10&offset=0` and never containing
`folder_id`; an all-omitted or empty map produces the empty string. -/
theorem build_query_params_spec (ps : List (String × PyVal)) :
    build_query_params
        [("limit", .vint 10), ("offset", .vint 0), ("folder_id", .vnone)]
      = "?limit=10&offset=0"
    ∧ ("limit=10&offset=0".data <:+:
        (build_query_params
          [("limit", .vint 10), ("offset", .vint 0), ("folder_id", .vnone)]).data)
    ∧ ¬ ("folder_id".data <:+:
        (build_query_params
          [("limit", .vint 10), ("offset", .vint 0), ("folder_id", .vnone)]).data)
    ∧ build_query_params [] = ""
    ∧ ((∀ p ∈ ps, p.2.isNone = true) → build_query_params ps = "")
    ∧ build_query_params ps = build_query_params (ps.filter fun p => !p.2.isNone) := by
  refine ⟨rfl, by decide, by decide, rfl, ?_, ?_⟩
  · intro h
    have hfil : ps.filter (fun p => !p.2.isNone) = [] :=
      List.filter_eq_nil_iff.mpr fun a ha => by simp [h a ha]
    simp [build_query_params, hfil]
  · have h2 : (ps.filter fun p => !p.2.isNone).filter (fun p => !p.2.isNone)
        = ps.filter fun p => !p.2.isNone := by
      rw [List.filter_filter]
      simp
    simp only [build_query_params, h2]

/-- Witness for C8: a map whose single value is `None` encodes to the empty
string. -/
theorem build_query_params_spec_witness :
    build_query_params [("a", PyVal.vnone)] = "" :=
  (build_query_params_spec [("a", PyVal.vnone)]).2.2.2.2.1
    (fun p hp => by rw [List.mem_singleton.mp hp]; rfl)

/-- C1 counterexample: at status 401 with the parsed body `[]` (a JSON array),
the classifier raises `AttributeError` from `response_data.get('message')`,
not the `AuthenticationError` the claim promises for every parsed body. -/
theorem classify_non_object_counterexample :
    raisesAuthenticationError (classify 401 (Json.arr [])) = false
    ∧ classify 401 (Json.arr []) = .error .attributeError :=
  ⟨rfl, rfl⟩

/-- C1 (amended): on status 200 the classifier returns the parsed body
unchanged, for every body.  For parsed bodies that are JSON objects it is
total and maps: each status in `{401,403,404,413,422,429}` to exactly the
corresponding typed error carrying the extracted message; every status in
`[500,600)` to a `ServerError` whose `status_code` equals the input status and
whose `response_data` equals the parsed body; and every other non-200 status
to the generic `DAMError` carrying the numeric status and extracted message.
(For a non-object parsed body and a non-200 status, message extraction raises
`AttributeError` instead.) -/
theorem classify_status_mapping (fields : List (String × Json)) (body : Json)
    (s t : Nat) :
    classify 200 body = .ok body
    ∧ classify 401 (.obj fields) = .error (.authenticationError (extractedMessage fields))
    ∧ classify 403 (.obj fields) = .error (.authorizationError (extractedMessage fields))
    ∧ classify 404 (.obj fields) = .error (.notFoundError (extractedMessage fields))
    ∧ classify 413 (.obj fields) = .error (.fileTooLargeError (extractedMessage fields))
    ∧ classify 422 (.obj fields) = .error (.validationError (extractedMessage fields))
    ∧ classify 429 (.obj fields) = .error (.rateLimitError (extractedMessage fields))
    ∧ (500 ≤ s → s < 600 →
        classify s (.obj fields) = .error (.serverError (extractedMessage fields) s (.obj fields)))
    ∧ (t ≠ 200 → t ∉ ([401, 403, 404, 413, 422, 429] : List Nat) →
        ¬(500 ≤ t ∧ t < 600) →
        classify t (.obj fields) = .error (.damError t (extractedMessage fields))) := by
  refine ⟨rfl, rfl, rfl, rfl, rfl, rfl, rfl, ?_, ?_⟩
  · intro h1 h2
    unfold classify
    rw [if_neg (by omega)]
    show (if s = 401 then _ else _) = _
    rw [if_neg (by omega), if_neg (by omega), if_neg (by omega),
      if_neg (by omega), if_neg (by omega), if_neg (by omega),
      if_pos ⟨h1, h2⟩]
  · intro h200 hmem hsrv
    simp only [List.mem_cons, List.not_mem_nil, or_false, not_or] at hmem
    obtain ⟨n1, n2, n3, n4, n5, n6⟩ := hmem
    unfold classify
    rw [if_neg h200]
    show (if t = 401 then _ else _) = _
    rw [if_neg n1, if_neg n2, if_neg n3, if_neg n4, if_neg n5, if_neg n6,
      if_neg hsrv]

/-- Witness for C1 at status 200, a server error 503, and the unmapped status
418, over the body `{'message': 'm'}`. -/
theorem classify_status_mapping_witness :
    classify 200 Json.null = .ok Json.null
    ∧ classify 503 (Json.obj [("message", Json.str "m")])
        = .error (.serverError (Json.str "m") 503 (Json.obj [("message", Json.str "m")]))
    ∧ classify 418 (Json.obj [("message", Json.str "m")])
        = .error (.damError 418 (Json.str "m")) :=
  ⟨(classify_status_mapping [("message", Json.str "m")] Json.null 503 418).1,
   (classify_status_mapping [("message", Json.str "m")] Json.null 503 418).2.2.2.2.2.2.2.1
     (by omega) (by omega),
   (classify_status_mapping [("message", Json.str "m")] Json.null 503 418).2.2.2.2.2.2.2.2
     (by omega) (by decide) (by omega)⟩

/-- C3 counterexample: extraction does fail on a response whose body parses
to a JSON array (status 401, body `[]` raises `AttributeError`); and an
unparseable empty body synthesizes `{'message': 'Unknown error'}` rather than
`{'message': ''}`, observable in the `response_data` of a 500-range error. -/
theorem extraction_counterexample :
    handle_response 401 (some (Json.arr [])) "[]" = .error .attributeError
    ∧ handle_response 500 none ""
        = .error (.serverError (Json.str "Unknown error") 500
            (Json.obj [("message", Json.str "Unknown error")])) :=
  ⟨rfl, rfl⟩

/-- C3 (amended): on JSON-object bodies, error-message extraction never
fails and follows the preference order: the `message` field if truthy, else
the `error` field if truthy, else the literal `"Unknown error"` (on a
non-object body it raises `AttributeError` instead); when the body fails to
parse as JSON, the classifier synthesizes the envelope
`{'message': <raw text>}` when the raw text is nonempty — so extraction
yields the raw text — and `{'message': 'Unknown error'}` when the raw text is
empty. -/
theorem extraction_spec (fields : List (String × Json)) (v w : Json)
    (text : String) (elems : List Json) :
    errorMessage (.obj fields) = .ok (extractedMessage fields)
    ∧ errorMessage (.arr elems) = .error .attributeError
    ∧ (dictGet fields "message" = v → v.truthy = true → extractedMessage fields = v)
    ∧ ((dictGet fields "message").truthy = false → dictGet fields "error" = w →
        w.truthy = true → extractedMessage fields = w)
    ∧ ((dictGet fields "message").truthy = false →
        (dictGet fields "error").truthy = false →
        extractedMessage fields = .str "Unknown error")
    ∧ (text ≠ "" →
        handle_response 401 none text = .error (.authenticationError (.str text)))
    ∧ handle_response 401 none "" = .error (.authenticationError (.str "Unknown error")) := by
  refine ⟨rfl, rfl, ?_, ?_, ?_, ?_, rfl⟩
  · intro hv htr
    rw [extractedMessage, hv, pyOr, if_pos htr]
  · intro hm hw htr
    rw [extractedMessage, pyOr, if_neg (by simp [hm]), hw, pyOr, if_pos htr]
  · intro hm he
    rw [extractedMessage, pyOr, if_neg (by simp [hm]), pyOr, if_neg (by simp [he])]
  · intro ht
    rw [handle_response]
    simp only [if_neg ht]
    rw [show classify 401 (Json.obj [("message", Json.str text)])
        = .error (.authenticationError (extractedMessage [("message", Json.str text)])) from rfl]
    rw [extractedMessage]
    rw [show dictGet [("message", Json.str text)] "message" = Json.str text from rfl]
    rw [pyOr, if_pos (by simp [Json.truthy, ht])]

/-- Witness for C3: the preference order over `{'message': '', 'error': 'X'}`
(falsy `message`, truthy `error`) and an unparseable nonempty body `"oops"`. -/
theorem extraction_spec_witness :
    extractedMessage [("message", Json.str ""), ("error", Json.str "X")] = Json.str "X"
    ∧ extractedMessage [("message", Json.str "m")] = Json.str "m"
    ∧ extractedMessage [] = Json.str "Unknown error"
    ∧ handle_response 401 none "oops" = .error (.authenticationError (Json.str "oops")) :=
  ⟨(extraction_spec [("message", Json.str ""), ("error", Json.str "X")]
        Json.null (Json.str "X") "oops" []).2.2.2.1 rfl rfl rfl,
   (extraction_spec [("message", Json.str "m")] (Json.str "m") Json.null "oops" []).2.2.1
     rfl rfl,
   (extraction_spec [] Json.null Json.null "oops" []).2.2.2.2.1 rfl rfl,
   (extraction_spec [] Json.null Json.null "oops" []).2.2.2.2.2.1 (by decide)⟩

/-- C2: the async client's error path does not re-raise the sync classifier's
typed error.  At status 401 with body `{'message': 'Invalid API key'}` the
sync classifier raises `AuthenticationError('Invalid API key')`, but in the
async `_request` that exception propagates to the clause
`except aiohttp.ClientTimeout`, whose class is not a `BaseException`
subclass, so Python raises `TypeError` instead. -/
theorem async_error_path_typeerror :
    handle_response 401 (some (Json.obj [("message", Json.str "Invalid API key")]))
        "raw body"
      = .error (.authenticationError (Json.str "Invalid API key"))
    ∧ async_request_error_path 401
        (some (Json.obj [("message", Json.str "Invalid API key")])) "raw body"
      = .error .typeErrorBadExceptClause :=
  ⟨rfl, rfl⟩

/-- C5: for every filesystem path whose size exceeds the configured maximum
(100 MB), `upload_file` raises `FileTooLargeError` before any network call —
the transport is never invoked for an oversize path input. -/
theorem upload_file_oversize_no_network (path : String) (size : Nat)
    (transport : Except PyExc Json) (h : MAX_FILE_SIZE < size) :
    (upload_file_path path size transport).2
      = .error (.fileTooLargeError
          (.str ("File exceeds maximum size of " ++ toString MAX_FILE_SIZE ++ " bytes")))
    ∧ UploadEvent.networkRequest ∉ (upload_file_path path size transport).1 := by
  have hval : validate_file_size size MAX_FILE_SIZE = false := by
    simp [validate_file_size]
    omega
  constructor
  · simp [upload_file_path, hval]
  · simp [upload_file_path, hval]

/-- Witness for C5 at a file one byte over the limit. -/
theorem upload_file_oversize_no_network_witness :
    (upload_file_path "big.bin" 104857601 (.ok Json.null)).2
      = .error (.fileTooLargeError
          (.str ("File exceeds maximum size of " ++ toString MAX_FILE_SIZE ++ " bytes")))
    ∧ UploadEvent.networkRequest ∉ (upload_file_path "big.bin" 104857601 (.ok Json.null)).1 :=
  upload_file_oversize_no_network "big.bin" 104857601 (.ok Json.null) (by decide)

/-- C4: `upload_multiple_files` does NOT release every opened handle on
assembly-phase errors.  With inputs `a.jpg` (1 byte) and `b.jpg` (one byte
over the limit), the size check for `b.jpg` raises `FileTooLargeError` from
the assembly loop — which runs before the `try/finally` — leaving the handle
already opened for `a.jpg` (index 0) unclosed.  On the success path and on
request-phase errors the `finally` block does close every opened handle. -/
theorem upload_multiple_leaks_handle :
    (upload_multiple_files [("a.jpg", 1), ("b.jpg", 104857601)] (.ok Json.null)).opened = [0]
    ∧ (upload_multiple_files [("a.jpg", 1), ("b.jpg", 104857601)] (.ok Json.null)).closed = []
    ∧ (upload_multiple_files [("a.jpg", 1), ("b.jpg", 104857601)] (.ok Json.null)).outcome
        = .error (.fileTooLargeError (.str "File b.jpg exceeds maximum size"))
    ∧ (upload_multiple_files [("a.jpg", 1), ("b.jpg", 2)] (.ok Json.null)).closed = [0, 1]
    ∧ (upload_multiple_files [("a.jpg", 1)]
        (.error (.damError 400 (Json.str "bad")))).closed = [0] :=
  ⟨rfl, rfl, rfl, rfl, rfl⟩

/-- C6 counterexample: `from_dict` on a dict whose `created_at` is the
ISO-8601 string `"2024-01-01T10:00:00"` (no offset) yields a NAIVE datetime
(`tzOffsetSeconds = none`), not a timezone-aware one; and the malformed
timestamp string `""` does not raise — it is left in the field unchanged. -/
theorem from_dict_counterexample :
    File.from_dict sampleFileDict = .ok sampleFileResult
    ∧ sampleFileResult.created_at = .dt sampleNaiveDt
    ∧ sampleNaiveDt.tzOffsetSeconds = none
    ∧ sampleFileResult.updated_at = .raw "" :=
  ⟨rfl, rfl, rfl, rfl⟩

/-- C6 (amended): for every dict whose `created_at`/`updated_at` are strings
accepted by `datetime.fromisoformat` after the `Z → +00:00` normalization,
`from_dict` produces a `File` whose fields equal the parsed instants — and
appending a `Z` suffix to an offset-free datetime string yields the same
instant made timezone-aware at UTC; offset-free strings remain naive; absent
or `None` fields stay `None`; a malformed nonempty timestamp string raises
`ValueError`; an empty-string timestamp is kept verbatim rather than
raising. -/
theorem from_dict_timestamp_roundtrip (d : FileDict) (ca ua : TimestampField)
    (s u m : String) (dt dtu : PyDatetime) :
    (convertTimestamp d.created_at = .ok ca → convertTimestamp d.updated_at = .ok ua →
      File.from_dict d = .ok
        { id := d.id, filename := d.filename, original_name := d.original_name,
          mime_type := d.mime_type, size := d.size, storage_path := d.storage_path,
          file_url := d.file_url, user_id := d.user_id, folder_id := d.folder_id,
          width := d.width, height := d.height, duration := d.duration,
          metadata := d.metadata, checksum := d.checksum, is_public := d.is_public,
          download_count := d.download_count, created_at := ca, updated_at := ua })
    ∧ (u ≠ "" → fromisoformat (pyReplaceZ u) = some dtu →
        convertTimestamp (.pystr u) = .ok (.dt dtu))
    ∧ ('Z' ∉ s.data → 10 < s.data.length → fromisoformat s = some dt →
        dt.tzOffsetSeconds = none →
        convertTimestamp (.pystr (s ++ "Z"))
          = .ok (.dt { dt with tzOffsetSeconds := some 0 }))
    ∧ convertTimestamp .absent = .ok .nothing
    ∧ convertTimestamp .pynone = .ok .nothing
    ∧ (m ≠ "" → fromisoformat (pyReplaceZ m) = none →
        convertTimestamp (.pystr m) = .error .valueError)
    ∧ convertTimestamp (.pystr "") = .ok (.raw "") := by
  refine ⟨?_, ?_, ?_, rfl, rfl, ?_, rfl⟩
  · intro h1 h2
    unfold File.from_dict
    rw [h1, h2]
    rfl
  · intro hu hp
    simp only [convertTimestamp]
    rw [if_neg hu, hp]
  · intro h1 h2 h3 h4
    have hiso := fromisoformat_zsuffix s dt h1 h2 h3 h4
    have hne : ¬ (s ++ "Z") = "" := by
      intro hcontra
      have hd := congrArg String.data hcontra
      rw [String.data_append] at hd
      simp at hd
    simp only [convertTimestamp]
    rw [if_neg hne, hiso]
  · intro hm hp
    simp only [convertTimestamp]
    rw [if_neg hm, hp]

/-- Witness for C6: an explicit-offset timestamp round-trips to an aware
datetime inside `from_dict`; appending `Z` to `"2024-01-01T10:00:00"` gives
the aware UTC instant; `"not-a-date"` raises `ValueError`. -/
theorem from_dict_timestamp_roundtrip_witness :
    File.from_dict sampleAwareDict = .ok sampleAwareResult
    ∧ convertTimestamp (.pystr "2024-01-01T10:00:00Z") = .ok (.dt sampleAwareDt)
    ∧ convertTimestamp (.pystr "not-a-date") = .error .valueError :=
  ⟨(from_dict_timestamp_roundtrip sampleAwareDict (.dt sampleAwareDt) .nothing
      "2024-01-01T10:00:00" "x" "not-a-date" sampleNaiveDt sampleNaiveDt).1 rfl rfl,
   (from_dict_timestamp_roundtrip sampleAwareDict (.dt sampleAwareDt) .nothing
      "2024-01-01T10:00:00" "x" "not-a-date" sampleNaiveDt sampleNaiveDt).2.2.1
      (by decide) (by decide) rfl rfl,
   (from_dict_timestamp_roundtrip sampleAwareDict (.dt sampleAwareDt) .nothing
      "2024-01-01T10:00:00" "x" "not-a-date" sampleNaiveDt sampleNaiveDt).2.2.2.2.2.1
      (by decide) rfl⟩

end DamSdk
